import Mathlib

/-!
Verification of the booking/credit engine of the Flex-Time backend.

The definitions below are a shallow embedding of the JavaScript route
handlers and Mongoose models:

* `calculateMinutesBetweenTimes`, `calculateRecurringClassMinutes`
  embed the helper functions of `src/routes/bookings.js`;
* `createBooking` embeds the `POST /` handler of `src/routes/bookings.js`;
* `handleWebhook` embeds the `POST /webhook` handler of
  `src/routes/payments.js`;
* `handlePaymentSuccess` embeds the `POST /payment-success` handler of
  `src/routes/payments.js`.

JavaScript `NaN` outcomes are modelled by `Option` (`none` = `NaN`); the
document store is modelled as in-memory lists of documents, with
`findOne`/`findById` returning the first match and the update operators
(`$inc`, `$push`, field set) rewriting the first matching document, which
is Mongo's behaviour on the single-document operations the code uses.
-/

namespace FlexTime

/-- JavaScript `Math.ceil(a / b)` for integer `a` and positive integer `b`:
the ceiling of the rational `a / b`, computed as `-((-a) / b)` with floor
division. -/
def jsCeilDiv (a b : Int) : Int := -((-a).ediv b)

/-- JavaScript `String.prototype.toLowerCase` restricted to the ASCII
strings the schema enum uses. -/
def jsToLower (s : String) : String := String.mk (s.data.map Char.toLower)

/-- JavaScript `String.prototype.split(':')` on the list of characters of
the string: the list of colon-separated fields. -/
def splitOnColon : List Char → List (List Char)
  | [] => [[]]
  | c :: cs =>
    let rest := splitOnColon cs
    if c = ':' then [] :: rest
    else
      match rest with
      | [] => [[c]]
      | f :: fs => (c :: f) :: fs

/-- JavaScript `Number(s)` on a field consisting of decimal digits:
`some` of its decimal value; `none` (`NaN`) as soon as a non-digit
character appears.  (`Number("")` is `0`, matching the empty list.) -/
def jsNumberDigits (cs : List Char) : Option Nat :=
  cs.foldl
    (fun acc c =>
      match acc with
      | none => none
      | some a => if c.isDigit then some (a * 10 + (c.toNat - 48)) else none)
    (some 0)

/-- The total minutes since midnight denoted by one `HH:MM` operand:
`split(':')`, destructure the first two fields, `Number` each, and form
`hour * 60 + minute`.  `none` models the `NaN` produced when a field is
missing or non-numeric. -/
def jsTimeTotalMinutes (s : String) : Option Int :=
  match splitOnColon s.data with
  | h :: m :: _ =>
    match jsNumberDigits h, jsNumberDigits m with
    | some hv, some mv => some ((hv : Int) * 60 + mv)
    | _, _ => none
  | _ => none

/-- Embedding of `calculateMinutesBetweenTimes(startTime, endTime)` from
`src/routes/bookings.js`: end total minutes minus start total minutes.
`none` models a `NaN` result. -/
def calculateMinutesBetweenTimes (startTime endTime : String) : Option Int :=
  match jsTimeTotalMinutes startTime, jsTimeTotalMinutes endTime with
  | some s, some e => some (e - s)
  | _, _ => none

/-- The canonical zero-padded two-digit decimal rendering of `n < 100`. -/
def padDigits (n : Nat) : List Char :=
  if n < 10 then ['0', Char.ofNat (48 + n)]
  else [Char.ofNat (48 + n / 10), Char.ofNat (48 + n % 10)]

/-- The canonical `HH:MM` rendering of an hour/minute pair. -/
def timeString (h m : Nat) : String :=
  String.mk (padDigits h ++ ':' :: padDigits m)

/-- A calendar date, standing for the JavaScript `Date` at UTC midnight
that `new Date(isoDateString)` produces for the stored class dates.
`month` is 1-based as in ISO strings (the JavaScript 0-based `getMonth`
offset cancels in every difference the code takes). -/
structure CivilDate where
  year : Int
  month : Int
  day : Int
deriving Repr, DecidableEq

/-- Days since the Unix epoch of a civil date (the value
`Date.getTime() / 86400000` has at UTC midnight), by the standard
days-from-civil algorithm. -/
def epochDay (c : CivilDate) : Int :=
  let y : Int := if c.month ≤ 2 then c.year - 1 else c.year
  let era : Int := (if 0 ≤ y then y else y - 399).ediv 400
  let yoe : Int := y - era * 400
  let doy : Int :=
    (153 * (if 2 < c.month then c.month - 3 else c.month + 9) + 2).ediv 5
      + c.day - 1
  let doe : Int := yoe * 365 + yoe.ediv 4 - yoe.ediv 100 + doy
  era * 146097 + doe - 719468

/-- Embedding of `Math.ceil((endDate - startDate) / 86400000)` for two UTC-midnight
dates: the millisecond difference is an exact multiple of a day, so the
ceiling is the exact day difference. -/
def daysBetween (startDate endDate : CivilDate) : Int :=
  epochDay endDate - epochDay startDate

/-- The fields of a `Class` document that the booking handler reads
(`src/models/Class.js`, `src/routes/bookings.js`). -/
structure ClassDoc where
  id : Nat
  date : CivilDate
  endDate : CivilDate
  startTime : String
  endTime : String
  maxCapacity : Nat
  isRecurringClass : Bool
  frequency : String
  attendees : List Nat
deriving Repr, DecidableEq

/-- Embedding of `calculateRecurringClassMinutes(classDetails, singleClassMinutes)`
from `src/routes/bookings.js`: dispatch on the lower-cased frequency;
daily counts both endpoints, weekly/bi-weekly take ceilings of the day
difference, monthly takes the inclusive calendar-month difference, and
any other frequency falls back to a single occurrence. -/
def calculateRecurringClassMinutes (classDetails : ClassDoc)
    (singleClassMinutes : Int) : Int :=
  let daysDifference := daysBetween classDetails.date classDetails.endDate
  match jsToLower classDetails.frequency with
  | "daily" => (daysDifference + 1) * singleClassMinutes
  | "weekly" => jsCeilDiv daysDifference 7 * singleClassMinutes
  | "bi-weekly" => jsCeilDiv daysDifference 14 * singleClassMinutes
  | "monthly" =>
    ((classDetails.endDate.year - classDetails.date.year) * 12
      + (classDetails.endDate.month - classDetails.date.month) + 1)
      * singleClassMinutes
  | _ => singleClassMinutes

/-- Addition of two JavaScript numbers under the `Option` model of `NaN`:
`none` (`NaN`) is absorbing. -/
def jsAdd (a b : Option Int) : Option Int :=
  match a, b with
  | some x, some y => some (x + y)
  | _, _ => none

/-- The fields of a `User` document the core reads (`src/models/User.js`).
`remainingMinutes` is the schema's balance field (default `0`);
`remainingHours` is the field the webhook's `$inc` targets even though the
schema does not declare it, modelled as `none` when it was never set. -/
structure UserDoc where
  id : Nat
  remainingMinutes : Option Int
  remainingHours : Option Int
deriving Repr, DecidableEq

/-- A `Booking` document (`src/models/Booking.js`); `minutesSpent` is
`none` when the stored number is `NaN`. -/
structure BookingDoc where
  userId : Nat
  classId : Nat
  minutesSpent : Option Int
deriving Repr, DecidableEq

/-- The fields of a `Package` document the payment routes read
(`src/unnamed/part_000`). -/
structure PackageDoc where
  userId : Nat
  hours : Int
  status : String
  stripePaymentIntentId : Option String
deriving Repr, DecidableEq

/-- The document store: one list per collection, in insertion order. -/
structure AppState where
  users : List UserDoc
  classes : List ClassDoc
  bookings : List BookingDoc
  packages : List PackageDoc
deriving Repr, DecidableEq

/-- Rewrite the first element satisfying `p` with `f`, as Mongo's
single-document update operations do. -/
def updateFirst (p : α → Bool) (f : α → α) : List α → List α
  | [] => []
  | x :: xs => if p x then f x :: xs else x :: updateFirst p f xs

/-- Embedding of `Class.findById(classId)`: the first stored class with that id. -/
def findClass (st : AppState) (classId : Nat) : Option ClassDoc :=
  st.classes.find? (fun c => c.id == classId)

/-- Embedding of `Booking.findOne({ userId, classId })`. -/
def findBookingFor (st : AppState) (userId classId : Nat) : Option BookingDoc :=
  st.bookings.find? (fun b => b.userId == userId && b.classId == classId)

/-- Embedding of `User.findById(userId)` restricted to `remainingMinutes`. -/
def userRemainingMinutes (st : AppState) (userId : Nat) : Option (Option Int) :=
  (st.users.find? (fun u => u.id == userId)).map (·.remainingMinutes)

/-- Embedding of `Package.findOne({ stripePaymentIntentId })`. -/
def findPackageByIntent (st : AppState) (intentId : String) : Option PackageDoc :=
  st.packages.find? (fun p => p.stripePaymentIntentId == some intentId)

/-- The outcome reported by the booking handler: the three early-return
errors (`404 Class not found`, `400 You have already booked this class`,
`400 Class is already full`) or the created booking in the `201` body. -/
inductive BookingOutcome where
  | classNotFound
  | alreadyBooked
  | classFull
  | created (b : BookingDoc)
deriving Repr, DecidableEq

/-- The HTTP status the booking handler pairs with each outcome. -/
def BookingOutcome.httpStatus : BookingOutcome → Nat
  | .classNotFound => 404
  | .alreadyBooked => 400
  | .classFull => 400
  | .created _ => 201

/-- Embedding of the `POST /` handler of `src/routes/bookings.js`: validate that the
class exists, that the user has no booking for it, and that it is not
full; then compute the duration, save the booking, `$inc` the user's
`remainingMinutes` by the negated total, and `$push` the user onto the
class's attendees. -/
def createBooking (userId classId : Nat) (st : AppState) :
    BookingOutcome × AppState :=
  match findClass st classId with
  | none => (.classNotFound, st)
  | some classDetails =>
    match findBookingFor st userId classId with
    | some _ => (.alreadyBooked, st)
    | none =>
      if classDetails.maxCapacity ≤ classDetails.attendees.length then
        (.classFull, st)
      else
        let singleClassMinutes :=
          calculateMinutesBetweenTimes classDetails.startTime classDetails.endTime
        let totalMinutes :=
          if classDetails.isRecurringClass then
            singleClassMinutes.map (calculateRecurringClassMinutes classDetails)
          else singleClassMinutes
        let newBooking : BookingDoc :=
          { userId := userId, classId := classId, minutesSpent := totalMinutes }
        let st1 := { st with bookings := st.bookings ++ [newBooking] }
        let st2 := { st1 with
          users := updateFirst (fun u => u.id == userId)
            (fun u => { u with
              remainingMinutes := jsAdd u.remainingMinutes (totalMinutes.map Neg.neg) })
            st1.users }
        let st3 := { st2 with
          classes := updateFirst (fun c => c.id == classId)
            (fun c => { c with attendees := c.attendees ++ [userId] })
            st2.classes }
        (.created newBooking, st3)

/-- A Stripe webhook event after signature verification. -/
inductive StripeEvent where
  | paymentIntentSucceeded (intentId : String)
  | paymentIntentFailed (intentId : String)
  | otherEvent
deriving Repr, DecidableEq

/-- The webhook handler's HTTP response: status code, and whether the
body is `{received: true}`. -/
structure WebhookResponse where
  status : Nat
  received : Bool
deriving Repr, DecidableEq

/-- Embedding of the `POST /webhook` handler of `src/routes/payments.js`.
`signatureValid` stands for the outcome of
`stripe.webhooks.constructEvent`, which throws on a bad signature.  On
`payment_intent.succeeded` the handler looks the package up by intent id
and, when found, sets its status to `paid` and runs
`$inc: { remainingHours: package.hours }` on the owner; on
`payment_intent.payment_failed` it sets the package's status to `failed`;
it then answers `200 {received:true}`. -/
def handleWebhook (signatureValid : Bool) (event : StripeEvent)
    (st : AppState) : WebhookResponse × AppState :=
  if signatureValid then
    match event with
    | .paymentIntentSucceeded intentId =>
      match findPackageByIntent st intentId with
      | none => ({ status := 200, received := true }, st)
      | some package =>
        let st1 := { st with
          packages := updateFirst (fun p => p.stripePaymentIntentId == some intentId)
            (fun p => { p with status := "paid" }) st.packages }
        let st2 := { st1 with
          users := updateFirst (fun u => u.id == package.userId)
            (fun u => { u with
              remainingHours := some (u.remainingHours.getD 0 + package.hours) })
            st1.users }
        ({ status := 200, received := true }, st2)
    | .paymentIntentFailed intentId =>
      ({ status := 200, received := true },
        { st with
          packages := updateFirst (fun p => p.stripePaymentIntentId == some intentId)
            (fun p => { p with status := "failed" }) st.packages })
    | .otherEvent => ({ status := 200, received := true }, st)
  else
    ({ status := 400, received := false }, st)

/-- The `POST /payment-success` handler's HTTP response: status code, and
whether the body is `{success: true, ...}`. -/
structure PaymentSuccessResponse where
  status : Nat
  success : Bool
deriving Repr, DecidableEq

/-- Embedding of the `POST /payment-success` handler of `src/routes/payments.js`.
`intentStatus` stands for the status Stripe reports for the retrieved
payment intent.  When it is `succeeded`, the handler finds the package by
intent id, sets its status to `paid` when found, and runs
`$inc: { remainingMinutes: package.hours * 60 }` on the owner; a missing
package makes `package.userId` throw, which the catch block turns into a
`500` with no state change. -/
def handlePaymentSuccess (intentStatus : String) (paymentIntentId : String)
    (st : AppState) : PaymentSuccessResponse × AppState :=
  if intentStatus = "succeeded" then
    match findPackageByIntent st paymentIntentId with
    | none => ({ status := 500, success := false }, st)
    | some package =>
      let st1 := { st with
        packages := updateFirst (fun p => p.stripePaymentIntentId == some paymentIntentId)
          (fun p => { p with status := "paid" }) st.packages }
      let st2 := { st1 with
        users := updateFirst (fun u => u.id == package.userId)
          (fun u => { u with
            remainingMinutes := jsAdd u.remainingMinutes (some (package.hours * 60)) })
          st1.users }
      ({ status := 200, success := true }, st2)
  else
    ({ status := 400, success := false }, st)

/-- The `totalMinutes` value the booking handler computes for a class:
the recurring-series total when `isRecurringClass`, else the single-class
minutes. -/
def bookingTotalMinutes (c : ClassDoc) : Option Int :=
  if c.isRecurringClass then
    (calculateMinutesBetweenTimes c.startTime c.endTime).map
      (calculateRecurringClassMinutes c)
  else calculateMinutesBetweenTimes c.startTime c.endTime

/-- The booking document the handler saves for a given user and class. -/
def newBookingFor (userId classId : Nat) (c : ClassDoc) : BookingDoc :=
  { userId := userId, classId := classId, minutesSpent := bookingTotalMinutes c }

/-- The stored bookings of one (user, class) pair. -/
def bookingsFor (st : AppState) (userId classId : Nat) : List BookingDoc :=
  st.bookings.filter (fun b => b.userId == userId && b.classId == classId)

/- Concrete fixtures used by the witnesses and counterexamples below. -/

/-- A user with an empty balance who bought a package. -/
def payUser : UserDoc := { id := 1, remainingMinutes := some 0, remainingHours := none }

/-- A pending standard package of ten hours, correlated to intent `pi_1`. -/
def payPackage : PackageDoc :=
  { userId := 1, hours := 10, status := "pending", stripePaymentIntentId := some "pi_1" }

/-- A store holding just `payUser` and `payPackage`. -/
def payState : AppState :=
  { users := [payUser], classes := [], bookings := [], packages := [payPackage] }

/-- The same store after the package was marked `failed`. -/
def failedState : AppState :=
  { payState with packages := [{ payPackage with status := "failed" }] }

/-- A one-hour, non-recurring class with two free seats. -/
def bkClass : ClassDoc :=
  { id := 5, date := ⟨2024, 1, 1⟩, endDate := ⟨2024, 1, 15⟩, startTime := "09:00",
    endTime := "10:00", maxCapacity := 2, isRecurringClass := false,
    frequency := "", attendees := [] }

/-- A user with ten hours of credit. -/
def bkUser : UserDoc := { id := 7, remainingMinutes := some 600, remainingHours := none }

/-- A store holding just `bkUser` and `bkClass`. -/
def bkState : AppState :=
  { users := [bkUser], classes := [bkClass], bookings := [], packages := [] }

/-- A class already at capacity. -/
def fullClass : ClassDoc := { bkClass with id := 6, maxCapacity := 1, attendees := [9] }

/-- The booking store extended with the full class. -/
def fullState : AppState := { bkState with classes := [bkClass, fullClass] }

/-- A monthly recurring class running from 2024-01-15 to 2024-03-10. -/
def monthlyClass : ClassDoc :=
  { bkClass with
    id := 8
    isRecurringClass := true
    frequency := "Monthly"
    date := ⟨2024, 1, 15⟩
    endDate := ⟨2024, 3, 10⟩ }

end FlexTime

namespace FlexTime

theorem splitOnColon_append (xs ys : List Char) (hx : ':' ∉ xs) :
    splitOnColon (xs ++ ':' :: ys) = xs :: splitOnColon ys := by
  induction xs with
  | nil => simp [splitOnColon]
  | cons c cs ih =>
    have hc : c ≠ ':' := fun h => hx (h ▸ List.mem_cons_self c cs)
    have hcs : ':' ∉ cs := fun h => hx (List.mem_cons_of_mem c h)
    simp only [List.cons_append, splitOnColon, if_neg hc]
    rw [List.append_eq, ih hcs]

theorem jsNumberDigits_padDigits (n : Nat) (hn : n < 100) :
    jsNumberDigits (padDigits n) = some n := by
  interval_cases n <;> rfl

theorem colon_not_mem_padDigits (n : Nat) (hn : n < 100) :
    ':' ∉ padDigits n := by
  interval_cases n <;> decide

theorem splitOnColon_no_colon (xs : List Char) (hx : ':' ∉ xs) :
    splitOnColon xs = [xs] := by
  induction xs with
  | nil => rfl
  | cons c cs ih =>
    have hc : c ≠ ':' := fun h => hx (h ▸ List.mem_cons_self c cs)
    have hcs : ':' ∉ cs := fun h => hx (List.mem_cons_of_mem c h)
    simp only [splitOnColon, ih hcs, if_neg hc]

theorem jsTimeTotalMinutes_timeString (h m : Nat) (hh : h < 100) (hm : m < 100) :
    jsTimeTotalMinutes (timeString h m) = some ((h : Int) * 60 + m) := by
  unfold jsTimeTotalMinutes timeString
  rw [show (String.mk (padDigits h ++ ':' :: padDigits m)).data
        = padDigits h ++ ':' :: padDigits m from rfl]
  rw [splitOnColon_append _ _ (colon_not_mem_padDigits h hh),
    splitOnColon_no_colon _ (colon_not_mem_padDigits m hm)]
  simp only [jsNumberDigits_padDigits h hh, jsNumberDigits_padDigits m hm]

theorem find?_updateFirst (p : α → Bool) (f : α → α) (l : List α)
    (hpf : ∀ x, p x → p (f x) = true) :
    (updateFirst p f l).find? p = (l.find? p).map f := by
  induction l with
  | nil => rfl
  | cons x xs ih =>
    by_cases hx : p x
    · simp [updateFirst, hx, List.find?_cons_of_pos, hpf x hx]
    · simp [updateFirst, hx, List.find?_cons_of_neg, ih]

theorem find?_append_of_none (p : α → Bool) (l l' : List α)
    (h : l.find? p = none) : (l ++ l').find? p = l'.find? p := by
  induction l with
  | nil => rfl
  | cons x xs ih =>
    rw [List.find?_cons] at h
    cases hx : p x with
    | true => rw [hx] at h; exact absurd h (by simp)
    | false =>
      rw [hx] at h
      simpa [List.find?_cons, hx] using ih h

theorem mem_updateFirst (p : α → Bool) (f : α → α) (l : List α) (y : α)
    (hy : y ∈ updateFirst p f l) :
    y ∈ l ∨ ∃ x, l.find? p = some x ∧ y = f x := by
  induction l with
  | nil => simp [updateFirst] at hy
  | cons x xs ih =>
    by_cases hx : p x
    · rw [updateFirst, if_pos hx] at hy
      rcases List.mem_cons.mp hy with h | h
      · exact Or.inr ⟨x, by simp [List.find?_cons_of_pos, hx], h⟩
      · exact Or.inl (List.mem_cons_of_mem x h)
    · rw [updateFirst, if_neg hx] at hy
      rcases List.mem_cons.mp hy with h | h
      · exact Or.inl (h ▸ List.mem_cons_self x xs)
      · rcases ih h with h' | ⟨c, hc, hyc⟩
        · exact Or.inl (List.mem_cons_of_mem x h')
        · exact Or.inr ⟨c, by simp [List.find?_cons_of_neg, hx, hc], hyc⟩

end FlexTime

namespace FlexTime

theorem createBooking_success_eq (userId classId : Nat) (st : AppState) (c : ClassDoc)
    (hc : findClass st classId = some c)
    (hb : findBookingFor st userId classId = none)
    (hcap : c.attendees.length < c.maxCapacity) :
    (createBooking userId classId st).1 = .created (newBookingFor userId classId c)
    ∧ (createBooking userId classId st).2.bookings
      = st.bookings ++ [newBookingFor userId classId c]
    ∧ (createBooking userId classId st).2.users
      = updateFirst (fun u => u.id == userId)
          (fun u => { u with
            remainingMinutes := jsAdd u.remainingMinutes ((bookingTotalMinutes c).map Neg.neg) })
          st.users
    ∧ (createBooking userId classId st).2.classes
      = updateFirst (fun cl => cl.id == classId)
          (fun cl => { cl with
            attendees := cl.attendees ++ [userId] })
          st.classes
    ∧ (createBooking userId classId st).2.packages = st.packages := by
  unfold createBooking
  simp only [hc, hb]
  rw [if_neg (not_le.mpr hcap)]
  exact ⟨rfl, rfl, rfl, rfl, rfl⟩

theorem createBooking_created_inv (userId classId : Nat) (st : AppState)
    (b : BookingDoc) (st1 : AppState)
    (h : createBooking userId classId st = (.created b, st1)) :
    ∃ c, findClass st classId = some c
      ∧ findBookingFor st userId classId = none
      ∧ c.attendees.length < c.maxCapacity
      ∧ b = newBookingFor userId classId c
      ∧ st1 = (createBooking userId classId st).2 := by
  have hsnd : st1 = (createBooking userId classId st).2 := (congrArg Prod.snd h).symm
  cases hfc : findClass st classId with
  | none =>
    have hne : createBooking userId classId st = (.classNotFound, st) := by
      unfold createBooking; simp only [hfc]
    rw [hne] at h
    exact absurd (congrArg Prod.fst h) (by simp)
  | some c =>
    cases hfb : findBookingFor st userId classId with
    | some b0 =>
      have hne : createBooking userId classId st = (.alreadyBooked, st) := by
        unfold createBooking; simp only [hfc, hfb]
      rw [hne] at h
      exact absurd (congrArg Prod.fst h) (by simp)
    | none =>
      by_cases hcap : c.maxCapacity ≤ c.attendees.length
      · have hne : createBooking userId classId st = (.classFull, st) := by
          unfold createBooking; simp only [hfc, hfb, if_pos hcap]
        rw [hne] at h
        exact absurd (congrArg Prod.fst h) (by simp)
      · have hlt := not_le.mp hcap
        have hfst := (createBooking_success_eq userId classId st c hfc hfb hlt).1
        rw [congrArg Prod.fst h] at hfst
        exact ⟨c, rfl, rfl, hlt, BookingOutcome.created.inj hfst, hsnd⟩

end FlexTime

namespace FlexTime

theorem calcRecurring_congr (c1 c2 : ClassDoc) (sm : Int)
    (hd : c1.date = c2.date) (he : c1.endDate = c2.endDate)
    (hf : jsToLower c1.frequency = jsToLower c2.frequency) :
    calculateRecurringClassMinutes c1 sm = calculateRecurringClassMinutes c2 sm := by
  unfold calculateRecurringClassMinutes
  rw [hd, he, hf]

/-- C6: for every pair of `HH:MM` 24-hour time strings, the handler's
`calculateMinutesBetweenTimes` returns the end time's total minutes since
midnight minus the start time's; for `start < end` the difference is
positive, and it is negative when the end precedes the start. -/
theorem calculateMinutesBetweenTimes_correct (h1 m1 h2 m2 : Nat)
    (hh1 : h1 < 24) (hm1 : m1 < 60) (hh2 : h2 < 24) (hm2 : m2 < 60) :
    calculateMinutesBetweenTimes (timeString h1 m1) (timeString h2 m2)
      = some (((h2 : Int) * 60 + m2) - ((h1 : Int) * 60 + m1))
    ∧ (h1 * 60 + m1 < h2 * 60 + m2 →
        0 < ((h2 : Int) * 60 + m2) - ((h1 : Int) * 60 + m1))
    ∧ (h2 * 60 + m2 < h1 * 60 + m1 →
        ((h2 : Int) * 60 + m2) - ((h1 : Int) * 60 + m1) < 0) := by
  refine ⟨?_, ?_, ?_⟩
  · unfold calculateMinutesBetweenTimes
    rw [jsTimeTotalMinutes_timeString h1 m1 (by omega) (by omega),
      jsTimeTotalMinutes_timeString h2 m2 (by omega) (by omega)]
  · intro hlt
    omega
  · intro hlt
    omega

/-- C7: for every class whose stored frequency is `Monthly`,
`calculateRecurringClassMinutes` returns
`(yearsDiff * 12 + monthsDiff + 1) * singleMinutes`, the inclusive
calendar-month difference between start and end date; in particular
2024-01-15 to 2024-03-10 yields three occurrences. -/
theorem calculateRecurringClassMinutes_monthly (cd : ClassDoc) (sm : Int)
    (hf : cd.frequency = "Monthly") :
    calculateRecurringClassMinutes cd sm
      = ((cd.endDate.year - cd.date.year) * 12
          + (cd.endDate.month - cd.date.month) + 1) * sm
    ∧ (cd.date = ⟨2024, 1, 15⟩ → cd.endDate = ⟨2024, 3, 10⟩ →
        calculateRecurringClassMinutes cd sm = 3 * sm) := by
  have h1 : calculateRecurringClassMinutes cd sm
      = ((cd.endDate.year - cd.date.year) * 12
          + (cd.endDate.month - cd.date.month) + 1) * sm := by
    unfold calculateRecurringClassMinutes
    rw [hf]
    rfl
  refine ⟨h1, fun hd he => ?_⟩
  rw [h1, hd, he]
  norm_num

/-- C10: `calculateRecurringClassMinutes` lower-cases the frequency before
dispatching, so frequencies equal up to letter case give the same result,
and the stored enum values `Daily`, `Weekly`, `Bi-weekly`, `Monthly`
select their corresponding branches rather than the single-occurrence
fallback. -/
theorem calculateRecurringClassMinutes_case_insensitive (cd : ClassDoc) (sm : Int)
    (f1 f2 : String) (hf : jsToLower f1 = jsToLower f2) :
    calculateRecurringClassMinutes { cd with frequency := f1 } sm
      = calculateRecurringClassMinutes { cd with frequency := f2 } sm
    ∧ calculateRecurringClassMinutes { cd with frequency := "Daily" } sm
      = (daysBetween cd.date cd.endDate + 1) * sm
    ∧ calculateRecurringClassMinutes { cd with frequency := "Weekly" } sm
      = jsCeilDiv (daysBetween cd.date cd.endDate) 7 * sm
    ∧ calculateRecurringClassMinutes { cd with frequency := "Bi-weekly" } sm
      = jsCeilDiv (daysBetween cd.date cd.endDate) 14 * sm
    ∧ calculateRecurringClassMinutes { cd with frequency := "Monthly" } sm
      = ((cd.endDate.year - cd.date.year) * 12
          + (cd.endDate.month - cd.date.month) + 1) * sm := by
  exact ⟨calcRecurring_congr _ _ sm rfl rfl hf, rfl, rfl, rfl, rfl⟩

end FlexTime

namespace FlexTime

/-- C4: a booking request against a class whose attendees list has
reached `maxCapacity` leaves the whole store unchanged and (when the
duplicate check has not already fired, which the handler runs first)
fails with the class-full conflict; consequently `createBooking` keeps
every class's attendees length at or below its capacity. -/
theorem createBooking_capacity_guard (userId classId : Nat) (st : AppState) :
    (∀ c, findClass st classId = some c →
      c.maxCapacity ≤ c.attendees.length →
      (createBooking userId classId st).2 = st
      ∧ (findBookingFor st userId classId = none →
          createBooking userId classId st = (.classFull, st)))
    ∧ ((∀ c ∈ st.classes, c.attendees.length ≤ c.maxCapacity) →
      ∀ c ∈ (createBooking userId classId st).2.classes,
        c.attendees.length ≤ c.maxCapacity) := by
  constructor
  · intro c hc hfull
    cases hfb : findBookingFor st userId classId with
    | some b0 =>
      have hne : createBooking userId classId st = (.alreadyBooked, st) := by
        unfold createBooking; simp only [hc, hfb]
      exact ⟨congrArg Prod.snd hne, fun hnone => absurd hnone (by simp)⟩
    | none =>
      have hne : createBooking userId classId st = (.classFull, st) := by
        unfold createBooking; simp only [hc, hfb, if_pos hfull]
      exact ⟨congrArg Prod.snd hne, fun _ => hne⟩
  · intro hinv
    cases hfc : findClass st classId with
    | none =>
      have hne : createBooking userId classId st = (.classNotFound, st) := by
        unfold createBooking; simp only [hfc]
      rw [hne]
      exact hinv
    | some c =>
      cases hfb : findBookingFor st userId classId with
      | some b0 =>
        have hne : createBooking userId classId st = (.alreadyBooked, st) := by
          unfold createBooking; simp only [hfc, hfb]
        rw [hne]
        exact hinv
      | none =>
        by_cases hcap : c.maxCapacity ≤ c.attendees.length
        · have hne : createBooking userId classId st = (.classFull, st) := by
            unfold createBooking; simp only [hfc, hfb, if_pos hcap]
          rw [hne]
          exact hinv
        · have hlt := not_le.mp hcap
          have hcl := (createBooking_success_eq userId classId st c hfc hfb hlt).2.2.2.1
          rw [hcl]
          intro c' hc'
          rcases mem_updateFirst _ _ _ _ hc' with h' | ⟨x, hx, hfx⟩
          · exact hinv c' h'
          · have hxc : x = c := by
              have : findClass st classId = some x := hx
              rw [hfc] at this
              exact (Option.some.inj this).symm
            subst hxc
            subst hfx
            simpa using hlt

end FlexTime

namespace FlexTime

theorem userRemaining_after_created (userId classId : Nat) (st : AppState)
    (b : BookingDoc) (st1 : AppState)
    (h : createBooking userId classId st = (.created b, st1))
    (r : Option Int) (hr : userRemainingMinutes st userId = some r) :
    userRemainingMinutes st1 userId = some (jsAdd r (b.minutesSpent.map Neg.neg)) := by
  obtain ⟨c, hfc, hfb, hcap, hb, hst1⟩ := createBooking_created_inv userId classId st b st1 h
  have hus : st1.users = updateFirst (fun u => u.id == userId)
      (fun u => { u with
        remainingMinutes := jsAdd u.remainingMinutes ((bookingTotalMinutes c).map Neg.neg) })
      st.users := by
    rw [hst1]
    exact (createBooking_success_eq userId classId st c hfc hfb hcap).2.2.1
  unfold userRemainingMinutes at hr ⊢
  rw [hus, find?_updateFirst (fun u => u.id == userId)
    (fun u => { u with
      remainingMinutes := jsAdd u.remainingMinutes ((bookingTotalMinutes c).map Neg.neg) })
    st.users (fun x hx => hx)]
  obtain ⟨u0, hu0, hu0r⟩ := Option.map_eq_some'.mp hr
  rw [hu0]
  simp only [Option.map_some', Option.some.injEq]
  rw [hb]
  simp [newBookingFor, hu0r]

end FlexTime

namespace FlexTime

/-- C5: after a successful `createBooking`, repeating the same call for
the same user and class fails with the already-booked conflict and leaves
the store untouched, so the balance is debited exactly once (by the first
call); and the at-most-one-booking-per-pair invariant is preserved. -/
theorem createBooking_duplicate_guard (userId classId : Nat) (st : AppState)
    (b : BookingDoc) (st1 : AppState)
    (h : createBooking userId classId st = (.created b, st1)) :
    createBooking userId classId st1 = (.alreadyBooked, st1)
    ∧ (∀ r, userRemainingMinutes st userId = some r →
        userRemainingMinutes st1 userId = some (jsAdd r (b.minutesSpent.map Neg.neg)))
    ∧ (∀ u k, (bookingsFor st u k).length ≤ 1 → (bookingsFor st1 u k).length ≤ 1) := by
  obtain ⟨c, hfc, hfb, hcap, hb, hst1⟩ := createBooking_created_inv userId classId st b st1 h
  have heq := createBooking_success_eq userId classId st c hfc hfb hcap
  have hbk : st1.bookings = st.bookings ++ [newBookingFor userId classId c] := by
    rw [hst1]; exact heq.2.1
  have hcl : st1.classes = updateFirst (fun cl => cl.id == classId)
      (fun cl => { cl with attendees := cl.attendees ++ [userId] }) st.classes := by
    rw [hst1]; exact heq.2.2.2.1
  refine ⟨?_, fun r hr => userRemaining_after_created userId classId st b st1 h r hr, ?_⟩
  · have hfc1 : findClass st1 classId
        = some { c with attendees := c.attendees ++ [userId] } := by
      unfold findClass
      rw [hcl, find?_updateFirst (fun cl => cl.id == classId)
        (fun cl => { cl with attendees := cl.attendees ++ [userId] })
        st.classes (fun x hx => hx)]
      rw [show st.classes.find? (fun cl => cl.id == classId) = some c from hfc]
      rfl
    have hfb1 : findBookingFor st1 userId classId
        = some (newBookingFor userId classId c) := by
      unfold findBookingFor
      rw [hbk, find?_append_of_none _ _ _ hfb]
      simp [newBookingFor, List.find?]
    unfold createBooking
    simp only [hfc1, hfb1]
  · intro u k hk
    unfold bookingsFor at hk ⊢
    rw [hbk, List.filter_append]
    by_cases huk : u = userId ∧ k = classId
    · obtain ⟨rfl, rfl⟩ := huk
      have hnil : st.bookings.filter (fun bk => bk.userId == u && bk.classId == k) = [] := by
        apply List.filter_eq_nil_iff.mpr
        intro x hx
        have := List.find?_eq_none.mp hfb x hx
        simpa using this
      rw [hnil]
      simp [newBookingFor]
    · have hnb : ([newBookingFor userId classId c].filter
          (fun bk => bk.userId == u && bk.classId == k)) = [] := by
        simp only [newBookingFor, List.filter, beq_iff_eq]
        have : ¬(userId = u ∧ classId = k) := fun ⟨h1, h2⟩ => huk ⟨h1.symm, h2.symm⟩
        rcases Decidable.not_and_iff_or_not.mp this with h' | h'
        · simp [beq_false_of_ne (fun hh => h' hh)]
        · simp [beq_false_of_ne (fun hh => h' hh)]
      rw [hnb, List.append_nil]
      exact hk

/-- C9: a successful `createBooking` decrements the user's
`remainingMinutes` by exactly the `minutesSpent` value stored on the
created booking, which is the one `totalMinutes` value the duration
calculator produced for the class. -/
theorem createBooking_debit_matches_minutesSpent (userId classId : Nat) (st : AppState)
    (b : BookingDoc) (st1 : AppState)
    (h : createBooking userId classId st = (.created b, st1)) :
    (∀ r, userRemainingMinutes st userId = some r →
      userRemainingMinutes st1 userId = some (jsAdd r (b.minutesSpent.map Neg.neg)))
    ∧ ∃ c, findClass st classId = some c ∧ b.minutesSpent = bookingTotalMinutes c := by
  obtain ⟨c, hfc, hfb, hcap, hb, hst1⟩ := createBooking_created_inv userId classId st b st1 h
  exact ⟨fun r hr => userRemaining_after_created userId classId st b st1 h r hr,
    c, hfc, by rw [hb]; rfl⟩

end FlexTime

namespace FlexTime

/-- C8: the webhook endpoint answers `400` with no state change exactly
when the payload signature fails to verify, and answers
`200 {received:true}` whenever it verifies. -/
theorem webhook_response_contract (event : StripeEvent) (st : AppState) :
    handleWebhook false event st = ({ status := 400, received := false }, st)
    ∧ (handleWebhook true event st).1 = { status := 200, received := true } := by
  constructor
  · rfl
  · cases event with
    | paymentIntentSucceeded intentId =>
      unfold handleWebhook
      cases hp : findPackageByIntent st intentId <;> simp [hp]
    | paymentIntentFailed intentId => rfl
    | otherEvent => rfl

/-- C1 (refuting evaluation): crediting is not idempotent per package.
One client-confirmation call for intent `pi_1` (ten hours) credits the
owner's `remainingMinutes` by `10 * 60 = 600`, and a second call for the
same intent credits again, reaching `1200` instead of staying at `600`:
the handler has no only-credit-when-leaving-pending guard. -/
theorem payment_success_double_credits :
    userRemainingMinutes (handlePaymentSuccess "succeeded" "pi_1" payState).2 1
      = some (some 600)
    ∧ userRemainingMinutes
        (handlePaymentSuccess "succeeded" "pi_1"
          (handlePaymentSuccess "succeeded" "pi_1" payState).2).2 1
      = some (some 1200) := ⟨rfl, rfl⟩

/-- C2 (refuting evaluation): on `payment_intent.succeeded` the webhook
marks the package `paid`, but the owner's `remainingMinutes` stays `0`
instead of rising by `hours * 60 = 600`: the handler's `$inc` targets a
`remainingHours` field (by `hours`) that the `User` schema does not even
declare. -/
theorem webhook_success_misses_minutes_ledger :
    (findPackageByIntent
        (handleWebhook true (.paymentIntentSucceeded "pi_1") payState).2 "pi_1").map
      PackageDoc.status = some "paid"
    ∧ userRemainingMinutes
        (handleWebhook true (.paymentIntentSucceeded "pi_1") payState).2 1
      = some (some 0)
    ∧ ((handleWebhook true (.paymentIntentSucceeded "pi_1") payState).2.users.find?
        (fun u => u.id == 1)).map UserDoc.remainingHours = some (some 10) :=
  ⟨rfl, rfl, rfl⟩

/-- C3 (refuting evaluation): a package already in status `failed` is
moved to `paid` by a later `payment_intent.succeeded` delivery for its
intent id: the webhook updates the package unconditionally, so non-pending
statuses are not terminal. -/
theorem webhook_success_overwrites_failed :
    (findPackageByIntent failedState "pi_1").map PackageDoc.status = some "failed"
    ∧ (findPackageByIntent
          (handleWebhook true (.paymentIntentSucceeded "pi_1") failedState).2 "pi_1").map
        PackageDoc.status = some "paid" := ⟨rfl, rfl⟩

end FlexTime

namespace FlexTime

theorem createBooking_capacity_guard_witness :
    createBooking 7 6 fullState = (.classFull, fullState) :=
  ((createBooking_capacity_guard 7 6 fullState).1 fullClass rfl (by decide)).2 rfl

theorem createBooking_duplicate_guard_witness :
    createBooking 7 5 (createBooking 7 5 bkState).2
      = (.alreadyBooked, (createBooking 7 5 bkState).2) :=
  (createBooking_duplicate_guard 7 5 bkState (newBookingFor 7 5 bkClass)
    (createBooking 7 5 bkState).2 rfl).1

theorem calculateMinutesBetweenTimes_correct_witness :
    calculateMinutesBetweenTimes (timeString 9 0) (timeString 10 30) = some 90 :=
  ((calculateMinutesBetweenTimes_correct 9 0 10 30 (by decide) (by decide) (by decide)
    (by decide)).1).trans (by decide)

theorem calculateRecurringClassMinutes_monthly_witness :
    calculateRecurringClassMinutes monthlyClass 60 = 180 :=
  ((calculateRecurringClassMinutes_monthly monthlyClass 60 rfl).2 rfl rfl).trans (by decide)

theorem createBooking_debit_matches_minutesSpent_witness :
    userRemainingMinutes (createBooking 7 5 bkState).2 7 = some (some 540) :=
  ((createBooking_debit_matches_minutesSpent 7 5 bkState (newBookingFor 7 5 bkClass)
    (createBooking 7 5 bkState).2 rfl).1 (some 600) rfl).trans (by decide)

theorem calculateRecurringClassMinutes_case_insensitive_witness :
    calculateRecurringClassMinutes { bkClass with frequency := "DAILY" } 60
      = calculateRecurringClassMinutes { bkClass with frequency := "daily" } 60 :=
  (calculateRecurringClassMinutes_case_insensitive bkClass 60 "DAILY" "daily" (by decide)).1

end FlexTime
